import Mathlib

/-!
Shallow embedding of the data-preparation pipeline and the
filter/aggregation logic of the FOMO student-wellbeing dashboard
(`fomo.py`).  Raw survey rows are modelled as records of optional
fields (a `none` models a pandas missing value / NaN), numeric cells
as rationals, and the pandas column operations as Lean functions on
those records.
-/

namespace FomoDash

/-! ### String normalisation helpers (pandas `.str` operations) -/

/-- Model of `str.strip`: drop leading and trailing whitespace. -/
def stripChars (l : List Char) : List Char :=
  ((l.dropWhile Char.isWhitespace).reverse.dropWhile Char.isWhitespace).reverse

/-- Auxiliary for whitespace collapsing: `prevWs` records whether the
previous character consumed was whitespace. -/
def collapseWsAux : Bool → List Char → List Char
  | _, [] => []
  | prevWs, c :: cs =>
    if c.isWhitespace then
      (if prevWs then ([] : List Char) else [' ']) ++ collapseWsAux true cs
    else
      c :: collapseWsAux false cs

/-- Model of the regex replacement of runs of whitespace by a single
space used on the categorical text columns. -/
def collapseWs (l : List Char) : List Char := collapseWsAux false l

/-- Auxiliary for `str.title`: `prevAlpha` records whether the previous
character was alphabetic. -/
def titleCharsAux : Bool → List Char → List Char
  | _, [] => []
  | prevAlpha, c :: cs =>
    (if c.isAlpha then (if prevAlpha then c.toLower else c.toUpper) else c)
      :: titleCharsAux c.isAlpha cs

/-- Model of `str.title`: capitalise the first letter of each
alphabetic run, lower-case the rest of the run. -/
def titleChars (l : List Char) : List Char := titleCharsAux false l

def stripStr (s : String) : String := ⟨stripChars s.data⟩

def titleStr (s : String) : String := ⟨titleChars s.data⟩

def collapseWsStr (s : String) : String := ⟨collapseWs s.data⟩

def toLowerStr (s : String) : String := ⟨s.data.map Char.toLower⟩

/-- Model of `.astype(str)` on a single cell: a missing value prints as
the literal string `"nan"`. -/
def astypeStr : Option String → String
  | none => "nan"
  | some s => s

/-- Categorical-text normalisation applied to the `fakultas` and
`program_studi` columns: cast to string, strip, collapse internal
whitespace, title-case. -/
def normalizeText (v : Option String) : String :=
  titleStr (collapseWsStr (stripStr (astypeStr v)))

/-- Fixed synonym-correction `replace` map applied to `fakultas`
(the second entry of the map in the source is the identity). -/
def fakultasFix (s : String) : String :=
  if s = "Fakultas Imu Sosial Budaya Dan Politik" then
    "Fakultas Ilmu Sosial Budaya Dan Politik"
  else s

/-! ### Row-wise numeric helpers (pandas NaN semantics) -/

/-- Values of a list of optional cells that are actually present;
models the `skipna` treatment of pandas row-wise reductions. -/
def definedVals : List (Option ℚ) → List ℚ
  | [] => []
  | none :: xs => definedVals xs
  | some x :: xs => x :: definedVals xs

/-- Row-wise `sum` with `skipna=True` and `min_count=0`: missing cells
count as 0, an all-missing row sums to 0. -/
def sumSkipna (xs : List (Option ℚ)) : ℚ := (definedVals xs).sum

/-- Row-wise `mean` with `skipna=True`: the mean of the present cells,
missing when no cell is present. -/
def meanSkipna (xs : List (Option ℚ)) : Option ℚ :=
  let d := definedVals xs
  if d.isEmpty then none else some (d.sum / d.length)

/-- NaN-propagating division of two cells. -/
def divOpt : Option ℚ → Option ℚ → Option ℚ
  | some a, some b => some (a / b)
  | _, _ => none

/-- NaN-propagating subtraction of two cells. -/
def subOpt : Option ℚ → Option ℚ → Option ℚ
  | some a, some b => some (a - b)
  | _, _ => none

/-- Model of `.replace(0, np.nan)` on a numeric cell. -/
def replaceZeroNan : Option ℚ → Option ℚ
  | some u => if u = 0 then none else some u
  | none => none

/-- Model of `.clip(lower=0)` on a numeric cell: NaN stays NaN,
a present value is clamped below at 0. -/
def clipLower0 : Option ℚ → Option ℚ
  | some x => some (max 0 x)
  | none => none

/-! ### Binning and category maps -/

/-- Model of `pd.cut(.., bins=[0, 0.2, 0.5, inf], include_lowest=True)`
with the default right-closed intervals: `[0, 0.2]`, `(0.2, 0.5]`,
`(0.5, inf)`; values below 0 fall outside every bin. -/
def cutProporsi (x : ℚ) : Option String :=
  if 0 ≤ x ∧ x ≤ 1/5 then some "Rendah (<20%)"
  else if 1/5 < x ∧ x ≤ 1/2 then some "Sedang (20-50%)"
  else if 1/2 < x then some "Tinggi (>50%)"
  else none

/-- Model of `pd.cut(.., bins=[0, 2.5, 3.5, 5], include_lowest=True)`
with the default right-closed intervals: `[0, 2.5]`, `(2.5, 3.5]`,
`(3.5, 5]`; values outside `[0, 5]` fall outside every bin. -/
def cutKeuangan (x : ℚ) : Option String :=
  if 0 ≤ x ∧ x ≤ 5/2 then some "Kurang"
  else if 5/2 < x ∧ x ≤ 7/2 then some "Cukup"
  else if 7/2 < x ∧ x ≤ 5 then some "Baik"
  else none

/-- Model of `.map({"ya": "Sering", "tidak": "Jarang"})`: unmapped
values become missing. -/
def mapYaTidak (t : String) : Option String :=
  if t = "ya" then some "Sering" else if t = "tidak" then some "Jarang" else none

/-- Derivation of `kategori_fomo` from `sering_merasa_fomo`:
`fillna("Tidak")`, strip, lower-case, map to labels, then
`fillna("Jarang")`. -/
def kategoriFomo (v : Option String) : String :=
  (mapYaTidak (toLowerStr (stripStr (v.getD "Tidak")))).getD "Jarang"

/-! ### The raw and prepared tables -/

/-- One raw survey row, restricted to the columns the preprocessing
pipeline reads.  Numeric columns are taken after the permissive
`pd.to_numeric(errors="coerce")` coercion, so a cell is either a
rational or missing. -/
structure RawRow where
  fakultas : Option String
  program_studi : Option String
  rata_rata_uang_saku_perbulan : Option ℚ
  pengeluaran_untuk_fomo_per_bulan : Option ℚ
  kemampuan_mengelola_keuangan : Option ℚ
  frekuensi_fomo_pengeluaran : Option ℚ
  frekuensi_kegiatan_karena_fomo : Option ℚ
  sering_merasa_fomo : Option String
  pengaruh_fomo_terhadap_emosi : Option ℚ
  frekuensi_stres_karena_finansial : Option ℚ
  frekuensi_hilang_semangat : Option ℚ
  frekuensi_stres_fomo : Option ℚ
  skor_psikologis : Option ℚ
  kebutuhan_dukungan : Option String
deriving DecidableEq

/-- One prepared row: the normalised raw columns together with the
derived indicators added by `preprocess_data`. -/
structure PreparedRow where
  fakultas : String
  program_studi : String
  rata_rata_uang_saku_perbulan : Option ℚ
  pengeluaran_untuk_fomo_per_bulan : Option ℚ
  kemampuan_mengelola_keuangan : Option ℚ
  frekuensi_fomo_pengeluaran : Option ℚ
  frekuensi_kegiatan_karena_fomo : Option ℚ
  sering_merasa_fomo : Option String
  skor_psikologis : Option ℚ
  kebutuhan_dukungan : Option String
  proporsi_fomo : Option ℚ
  sisa_uang_saku : Option ℚ
  kategori_proporsi : Option String
  kategori_keuangan : Option String
  kategori_fomo : String
  skor_fomo_relatif : ℚ
  indeks_stres : Option ℚ
deriving DecidableEq

/-- Per-row body of `preprocess_data` (the pipeline is row-independent:
every derived column is a function of the same row). -/
def preprocessRow (r : RawRow) : PreparedRow :=
  let proporsi :=
    clipLower0 (divOpt r.pengeluaran_untuk_fomo_per_bulan
      (replaceZeroNan r.rata_rata_uang_saku_perbulan))
  { fakultas := fakultasFix (normalizeText r.fakultas)
    program_studi := normalizeText r.program_studi
    rata_rata_uang_saku_perbulan := r.rata_rata_uang_saku_perbulan
    pengeluaran_untuk_fomo_per_bulan := r.pengeluaran_untuk_fomo_per_bulan
    kemampuan_mengelola_keuangan := r.kemampuan_mengelola_keuangan
    frekuensi_fomo_pengeluaran := r.frekuensi_fomo_pengeluaran
    frekuensi_kegiatan_karena_fomo := r.frekuensi_kegiatan_karena_fomo
    sering_merasa_fomo := r.sering_merasa_fomo
    skor_psikologis := r.skor_psikologis
    kebutuhan_dukungan := r.kebutuhan_dukungan
    proporsi_fomo := proporsi
    sisa_uang_saku := subOpt r.rata_rata_uang_saku_perbulan
      r.pengeluaran_untuk_fomo_per_bulan
    kategori_proporsi := proporsi.bind cutProporsi
    kategori_keuangan := r.kemampuan_mengelola_keuangan.bind cutKeuangan
    kategori_fomo := kategoriFomo r.sering_merasa_fomo
    skor_fomo_relatif :=
      sumSkipna [r.frekuensi_fomo_pengeluaran, r.frekuensi_kegiatan_karena_fomo] / 2
    indeks_stres :=
      meanSkipna [r.pengaruh_fomo_terhadap_emosi, r.frekuensi_stres_karena_finansial,
        r.frekuensi_hilang_semangat, r.frekuensi_stres_fomo] }

/-- The preprocessing pipeline over a whole raw table. -/
def preprocess_data (df : List RawRow) : List PreparedRow :=
  df.map preprocessRow

/-! ### Filter and aggregation engine -/

/-- Lexicographic comparison on character lists, used to model the
ascending key order of `groupby(sort=True)`. -/
def lexLe : List Char → List Char → Bool
  | [], _ => true
  | _ :: _, [] => false
  | a :: as, b :: bs =>
    if a.toNat < b.toNat then true
    else if b.toNat < a.toNat then false
    else lexLe as bs

def strLe (a b : String) : Bool := lexLe a.data b.data

def insertSorted (a : String) : List String → List String
  | [] => [a]
  | b :: bs => if strLe a b then a :: b :: bs else b :: insertSorted a bs

/-- Ascending stable insertion sort on strings. -/
def sortStrings : List String → List String
  | [] => []
  | a :: as => insertSorted a (sortStrings as)

/-- Model of `df.groupby(key).size()`: one `(label, count)` pair per
distinct key value, keys in ascending order. -/
def groupbyCount (key : PreparedRow → String) (rows : List PreparedRow) :
    List (String × ℕ) :=
  (sortStrings (rows.map key).dedup).map
    (fun k => (k, (rows.filter (fun r => key r == k)).length))

/-- Model of `df.groupby(key)[val].mean()`: one `(label, mean)` pair per
distinct key value, the mean skipping missing cells (a group whose cells
are all missing gets a missing mean). -/
def groupbyMean (key : PreparedRow → String) (val : PreparedRow → Option ℚ)
    (rows : List PreparedRow) : List (String × Option ℚ) :=
  (sortStrings (rows.map key).dedup).map
    (fun k => (k, meanSkipna ((rows.filter (fun r => key r == k)).map val)))

def insertByCount (p : String × ℕ) : List (String × ℕ) → List (String × ℕ)
  | [] => [p]
  | q :: qs => if q.2 < p.2 then p :: q :: qs else q :: insertByCount p qs

/-- Stable sort of `(label, count)` pairs by descending count. -/
def sortByCountDesc : List (String × ℕ) → List (String × ℕ)
  | [] => []
  | p :: ps => insertByCount p (sortByCountDesc ps)

/-- Model of `series.value_counts()`: missing cells dropped, one
`(value, count)` pair per distinct present value, sorted by descending
count. -/
def valueCounts (key : PreparedRow → Option String) (rows : List PreparedRow) :
    List (String × ℕ) :=
  let vs := rows.filterMap key
  sortByCountDesc ((sortStrings vs.dedup).map
    (fun k => (k, (vs.filter (fun v => v == k)).length)))

/-- Closed-interval membership of a numeric cell, as produced by
`series.between(lower, upper)`: a missing cell is never a member. -/
def betweenOpt (lo hi : ℚ) : Option ℚ → Bool
  | some x => decide (lo ≤ x) && decide (x ≤ hi)
  | none => false

/-- Model of the slider upper bound `prop_max_val`: the maximum of the
present `proporsi_fomo` values, replaced by 1 when it is not positive
(the all-missing case gives the fold seed 0, matching the non-finite
branch of the source). -/
def propMaxVal (rows : List PreparedRow) : ℚ :=
  let m := (definedVals (rows.map (fun r => r.proporsi_fomo))).foldl max 0
  if m ≤ 0 then 1 else m

/-- Model of the slider setup: `prop_range` is the full range
`(0, prop_max_val)` by default when the `proporsi_fomo` column has at
least one present value, and `None` otherwise. -/
def propRangeOf (rows : List PreparedRow) : Option (ℚ × ℚ) :=
  if rows.any (fun r => r.proporsi_fomo.isSome) then
    some (0, propMaxVal rows)
  else none

/-- The AND-composed filter chain of the interactive exploration view.
`none` models the sentinel selection covering all rows, and an empty
multi-select list applies no `program_studi` filter (a non-empty tuple
`prop_range` is always truthy in the source, so the interval filter is
applied whenever the slider exists). -/
def filterInteraktif (fakultas : Option String) (fomo : Option String)
    (keuangan : Option String) (propRange : Option (ℚ × ℚ))
    (program : List String) (rows : List PreparedRow) : List PreparedRow :=
  let d1 := match fakultas with
    | some f => rows.filter (fun r => r.fakultas == f)
    | none => rows
  let d2 := match fomo with
    | some f => d1.filter (fun r => r.kategori_fomo == f)
    | none => d1
  let d3 := match keuangan with
    | some k => d2.filter (fun r => r.kategori_keuangan == some k)
    | none => d2
  let d4 := match propRange with
    | some (lo, hi) => d3.filter (fun r => betweenOpt lo hi r.proporsi_fomo)
    | none => d3
  match program with
  | [] => d4
  | _ :: _ => d4.filter (fun r => program.contains r.program_studi)

/-! ### Concrete example rows -/

/-- A raw row with every cell missing. -/
def baseRow : RawRow :=
  { fakultas := none, program_studi := none,
    rata_rata_uang_saku_perbulan := none, pengeluaran_untuk_fomo_per_bulan := none,
    kemampuan_mengelola_keuangan := none, frekuensi_fomo_pengeluaran := none,
    frekuensi_kegiatan_karena_fomo := none, sering_merasa_fomo := none,
    pengaruh_fomo_terhadap_emosi := none, frekuensi_stres_karena_finansial := none,
    frekuensi_hilang_semangat := none, frekuensi_stres_fomo := none,
    skor_psikologis := none, kebutuhan_dukungan := none }

def rowOneFreq : RawRow := { baseRow with frekuensi_fomo_pengeluaran := some 4 }

def rowOneKeg : RawRow := { baseRow with frekuensi_kegiatan_karena_fomo := some 2 }

def rowBothFreq : RawRow :=
  { baseRow with
    frekuensi_fomo_pengeluaran := some 4
    frekuensi_kegiatan_karena_fomo := some 2 }

def rowKeu25 : RawRow := { baseRow with kemampuan_mengelola_keuangan := some (5/2) }

def rowKeu3 : RawRow := { baseRow with kemampuan_mengelola_keuangan := some 3 }

def rowRatio15 : RawRow :=
  { baseRow with
    rata_rata_uang_saku_perbulan := some 5
    pengeluaran_untuk_fomo_per_bulan := some 1 }

def rowRatio12 : RawRow :=
  { baseRow with
    rata_rata_uang_saku_perbulan := some 2
    pengeluaran_untuk_fomo_per_bulan := some 1 }

def rowZeroUang : RawRow :=
  { baseRow with
    rata_rata_uang_saku_perbulan := some 0
    pengeluaran_untuk_fomo_per_bulan := some 50000 }

def rowSeringYa : RawRow := { baseRow with sering_merasa_fomo := some "Ya" }

def rowSeringWs : RawRow := { baseRow with sering_merasa_fomo := some " ya " }

/-! ### Shared helper lemmas -/

theorem clipLower0_nonneg {v : Option ℚ} {x : ℚ} (h : clipLower0 v = some x) :
    0 ≤ x := by
  cases v with
  | none => simp [clipLower0] at h
  | some y =>
    simp only [clipLower0, Option.some.injEq] at h
    rw [← h]
    exact le_max_left 0 y

theorem mem_insertSorted (a x : String) (l : List String) :
    x ∈ insertSorted a l ↔ x = a ∨ x ∈ l := by
  induction l with
  | nil => simp [insertSorted]
  | cons b bs ih =>
    simp only [insertSorted]
    split
    · simp [List.mem_cons, or_comm, or_assoc]
    · simp only [List.mem_cons, ih]
      tauto

theorem mem_sortStrings (x : String) (l : List String) :
    x ∈ sortStrings l ↔ x ∈ l := by
  induction l with
  | nil => simp [sortStrings]
  | cons b bs ih => simp [sortStrings, mem_insertSorted, ih]

/-! ### Claim theorems -/

/-- C1, counterexample: on a row whose FOMO-activity frequency is
missing and whose FOMO-expense frequency is 4, the derived
`skor_fomo_relatif` is the defined numeric value `2 = 4 / 2`, computed
from the single present input, instead of being left missing as the
claim requires (the row-wise `sum` skips missing cells, so the derived
column is always defined). -/
theorem skor_relatif_single_input_cex :
    rowOneFreq.frekuensi_kegiatan_karena_fomo = none ∧
    (preprocessRow rowOneFreq).skor_fomo_relatif = 2 := by
  constructor
  · rfl
  · simp [preprocessRow, sumSkipna, definedVals, rowOneFreq, baseRow]
    norm_num

/-- C1, amended: `skor_fomo_relatif` is always defined; it equals the
arithmetic mean of the two frequency values when both are present, half
of the single present value when exactly one is present, and 0 when
both are missing. -/
theorem skor_relatif_skipna_mean (r : RawRow) :
    (∀ a b, r.frekuensi_fomo_pengeluaran = some a →
      r.frekuensi_kegiatan_karena_fomo = some b →
      (preprocessRow r).skor_fomo_relatif = (a + b) / 2) ∧
    (∀ a, r.frekuensi_fomo_pengeluaran = some a →
      r.frekuensi_kegiatan_karena_fomo = none →
      (preprocessRow r).skor_fomo_relatif = a / 2) ∧
    (∀ b, r.frekuensi_fomo_pengeluaran = none →
      r.frekuensi_kegiatan_karena_fomo = some b →
      (preprocessRow r).skor_fomo_relatif = b / 2) ∧
    (r.frekuensi_fomo_pengeluaran = none →
      r.frekuensi_kegiatan_karena_fomo = none →
      (preprocessRow r).skor_fomo_relatif = 0) := by
  refine ⟨?_, ?_, ?_, ?_⟩ <;> intros <;>
    simp_all [preprocessRow, sumSkipna, definedVals]

/-- Witness for the amended C1 theorem at four concrete rows covering
the four presence patterns of the two frequency inputs. -/
theorem skor_relatif_skipna_mean_witness :
    (preprocessRow rowBothFreq).skor_fomo_relatif = (4 + 2) / 2 ∧
    (preprocessRow rowOneFreq).skor_fomo_relatif = 4 / 2 ∧
    (preprocessRow rowOneKeg).skor_fomo_relatif = 2 / 2 ∧
    (preprocessRow baseRow).skor_fomo_relatif = 0 :=
  ⟨(skor_relatif_skipna_mean rowBothFreq).1 4 2 rfl rfl,
    (skor_relatif_skipna_mean rowOneFreq).2.1 4 rfl rfl,
    (skor_relatif_skipna_mean rowOneKeg).2.2.1 2 rfl rfl,
    (skor_relatif_skipna_mean baseRow).2.2.2 rfl rfl⟩

/-- C2, counterexample: a financial-management capability score of
exactly 2.5 is assigned the bucket Kurang (Poor), not Cukup (Adequate):
the `pd.cut` call uses the default right-closed intervals, so an
interior breakpoint belongs to the bucket that ends at it, contrary to
the claimed inclusive-lower-edge semantics. -/
theorem kategori_keuangan_boundary_cex :
    rowKeu25.kemampuan_mengelola_keuangan = some (5/2) ∧
    (preprocessRow rowKeu25).kategori_keuangan = some "Kurang" ∧
    (preprocessRow rowKeu25).kategori_keuangan ≠ some "Cukup" := by
  have h2 : (preprocessRow rowKeu25).kategori_keuangan = some "Kurang" := by
    simp [preprocessRow, cutKeuangan, rowKeu25, baseRow]
    norm_num
  refine ⟨rfl, h2, ?_⟩
  rw [h2]
  decide

/-- C2, amended: over the valid score range 1 to 5 the bucket
assignment is total and gap-free, with boundaries inclusive at the
UPPER edge: a score of exactly 2.5 is Kurang and a score of exactly 3.5
is Cukup. -/
theorem kategori_keuangan_upper_inclusive (r : RawRow) (x : ℚ)
    (hx : r.kemampuan_mengelola_keuangan = some x)
    (h1 : 1 ≤ x) (h5 : x ≤ 5) :
    (x ≤ 5/2 ∧ (preprocessRow r).kategori_keuangan = some "Kurang") ∨
    (5/2 < x ∧ x ≤ 7/2 ∧ (preprocessRow r).kategori_keuangan = some "Cukup") ∨
    (7/2 < x ∧ (preprocessRow r).kategori_keuangan = some "Baik") := by
  have h0 : (0:ℚ) ≤ x := by linarith
  simp only [preprocessRow, hx, Option.some_bind]
  rcases le_or_lt x (5/2) with h | h
  · exact Or.inl ⟨h, by simp [cutKeuangan, h0, h]⟩
  · rcases le_or_lt x (7/2) with h2 | h2
    · exact Or.inr (Or.inl ⟨h, h2, by simp [cutKeuangan, not_le.mpr h, h2]⟩)
    · exact Or.inr (Or.inr ⟨h2, by
        simp [cutKeuangan, not_le.mpr h, not_le.mpr h2, h5]⟩)

/-- Witness for the amended C2 theorem at the concrete score 3, which
lands in the Cukup branch. -/
theorem kategori_keuangan_upper_inclusive_witness :
    ((3:ℚ) ≤ 5/2 ∧ (preprocessRow rowKeu3).kategori_keuangan = some "Kurang") ∨
    ((5:ℚ)/2 < 3 ∧ (3:ℚ) ≤ 7/2 ∧
      (preprocessRow rowKeu3).kategori_keuangan = some "Cukup") ∨
    ((7:ℚ)/2 < 3 ∧ (preprocessRow rowKeu3).kategori_keuangan = some "Baik") :=
  kategori_keuangan_upper_inclusive rowKeu3 3 rfl (by norm_num) (by norm_num)

/-- C3: every row with a defined `proporsi_fomo` receives exactly one of
the three `kategori_proporsi` labels, determined by the trichotomy at
the breakpoints: a ratio of exactly 0.2 is Rendah (Low) and a ratio of
exactly 0.5 is Sedang (Medium), each in the lower-adjacent bucket. -/
theorem kategori_proporsi_partition (r : RawRow) (x : ℚ)
    (hx : (preprocessRow r).proporsi_fomo = some x) :
    (x ≤ 1/5 ∧ (preprocessRow r).kategori_proporsi = some "Rendah (<20%)") ∨
    (1/5 < x ∧ x ≤ 1/2 ∧
      (preprocessRow r).kategori_proporsi = some "Sedang (20-50%)") ∨
    (1/2 < x ∧ (preprocessRow r).kategori_proporsi = some "Tinggi (>50%)") := by
  simp only [preprocessRow] at hx
  have h0 : (0:ℚ) ≤ x := clipLower0_nonneg hx
  simp only [preprocessRow, hx, Option.some_bind]
  rcases le_or_lt x (1/5) with h | h
  · refine Or.inl ⟨h, ?_⟩
    unfold cutProporsi
    rw [if_pos ⟨h0, h⟩]
  · rcases le_or_lt x (1/2) with h2 | h2
    · refine Or.inr (Or.inl ⟨h, h2, ?_⟩)
      unfold cutProporsi
      rw [if_neg (fun hc => absurd hc.2 (not_le.mpr h)), if_pos ⟨h, h2⟩]
    · refine Or.inr (Or.inr ⟨h2, ?_⟩)
      unfold cutProporsi
      rw [if_neg (fun hc => absurd hc.2 (not_le.mpr h)),
        if_neg (fun hc => absurd hc.2 (not_le.mpr h2)), if_pos h2]

/-- Witness for C3 at a concrete row with allowance 5 and FOMO spending
1, whose ratio is exactly the breakpoint 0.2. -/
theorem kategori_proporsi_partition_witness :
    ((1:ℚ)/5 ≤ 1/5 ∧
      (preprocessRow rowRatio15).kategori_proporsi = some "Rendah (<20%)") ∨
    ((1:ℚ)/5 < 1/5 ∧ (1:ℚ)/5 ≤ 1/2 ∧
      (preprocessRow rowRatio15).kategori_proporsi = some "Sedang (20-50%)") ∨
    ((1:ℚ)/2 < 1/5 ∧
      (preprocessRow rowRatio15).kategori_proporsi = some "Tinggi (>50%)") :=
  kategori_proporsi_partition rowRatio15 (1/5) (by
    simp [preprocessRow, clipLower0, divOpt, replaceZeroNan, rowRatio15, baseRow])

/-- C5: the `proporsi_fomo` derivation is guarded against zero and
missing allowances: the ratio is missing whenever the allowance is
missing or zero, equals the spending divided by the allowance clamped
below at 0 otherwise, and every defined ratio is nonnegative. -/
theorem proporsi_fomo_guarded (r : RawRow) :
    ((r.rata_rata_uang_saku_perbulan = none ∨
        r.rata_rata_uang_saku_perbulan = some 0) →
      (preprocessRow r).proporsi_fomo = none) ∧
    (∀ u s, r.rata_rata_uang_saku_perbulan = some u → u ≠ 0 →
      r.pengeluaran_untuk_fomo_per_bulan = some s →
      (preprocessRow r).proporsi_fomo = some (max 0 (s / u))) ∧
    (∀ x, (preprocessRow r).proporsi_fomo = some x → 0 ≤ x) := by
  refine ⟨?_, ?_, ?_⟩
  · rintro (h | h) <;>
      simp [preprocessRow, h, replaceZeroNan, divOpt, clipLower0]
  · intro u s hu hu0 hs
    simp [preprocessRow, hu, hs, replaceZeroNan, hu0, divOpt, clipLower0]
  · intro x hx
    simp only [preprocessRow] at hx
    exact clipLower0_nonneg hx

/-- Witness for C5 at two concrete rows: a zero allowance makes the
ratio missing, and allowance 2 with spending 1 gives the defined
nonnegative ratio 0.5. -/
theorem proporsi_fomo_guarded_witness :
    (preprocessRow rowZeroUang).proporsi_fomo = none ∧
    (preprocessRow rowRatio12).proporsi_fomo = some (max 0 ((1:ℚ) / 2)) ∧
    (0:ℚ) ≤ 1/2 :=
  ⟨(proporsi_fomo_guarded rowZeroUang).1 (Or.inr rfl),
    (proporsi_fomo_guarded rowRatio12).2.1 2 1 rfl (by norm_num) rfl,
    (proporsi_fomo_guarded rowRatio12).2.2 (1/2) (by
      have := (proporsi_fomo_guarded rowRatio12).2.1 2 1 rfl (by norm_num) rfl
      rw [this]
      norm_num)⟩

/-- C6: `kategori_fomo` is total: a row whose raw value trims and
lower-cases to the affirmative token "ya" is labelled Sering
(Frequent), and every other row, including rows whose raw value is
missing or unrecognized, is labelled Jarang (Rare). -/
theorem kategori_fomo_total (r : RawRow) :
    ((∃ s, r.sering_merasa_fomo = some s ∧ toLowerStr (stripStr s) = "ya") →
      (preprocessRow r).kategori_fomo = "Sering") ∧
    ((∀ s, r.sering_merasa_fomo = some s → toLowerStr (stripStr s) ≠ "ya") →
      (preprocessRow r).kategori_fomo = "Jarang") := by
  constructor
  · rintro ⟨s, hs, hya⟩
    simp [preprocessRow, kategoriFomo, hs, hya, mapYaTidak]
  · intro hns
    cases hcase : r.sering_merasa_fomo with
    | none =>
      simp only [preprocessRow, hcase]
      decide
    | some s =>
      have hne := hns s hcase
      simp only [preprocessRow, hcase, kategoriFomo, mapYaTidak, Option.getD_some]
      rw [if_neg hne]
      by_cases htd : toLowerStr (stripStr s) = "tidak" <;> simp [htd]

/-- Witness for C6 at three concrete rows: the raw values "Ya" and
" ya " map to Sering, a missing raw value maps to Jarang. -/
theorem kategori_fomo_total_witness :
    (preprocessRow rowSeringYa).kategori_fomo = "Sering" ∧
    (preprocessRow rowSeringWs).kategori_fomo = "Sering" ∧
    (preprocessRow baseRow).kategori_fomo = "Jarang" :=
  ⟨(kategori_fomo_total rowSeringYa).1 ⟨"Ya", rfl, by decide⟩,
    (kategori_fomo_total rowSeringWs).1 ⟨" ya ", rfl, by decide⟩,
    (kategori_fomo_total baseRow).2 (fun _ hs => Option.noConfusion hs)⟩

/-- C7: when the AND-composed filter chain selects no rows, the
group-by count, group-by mean and value-count aggregations over the
filtered subset all return an empty result instead of failing. -/
theorem empty_filter_agg_safe (fak fomo keu : Option String)
    (pr : Option (ℚ × ℚ)) (prog : List String) (rows : List PreparedRow)
    (key : PreparedRow → String) (val : PreparedRow → Option ℚ)
    (vkey : PreparedRow → Option String)
    (h : filterInteraktif fak fomo keu pr prog rows = []) :
    groupbyCount key (filterInteraktif fak fomo keu pr prog rows) = [] ∧
    groupbyMean key val (filterInteraktif fak fomo keu pr prog rows) = [] ∧
    valueCounts vkey (filterInteraktif fak fomo keu pr prog rows) = [] := by
  rw [h]
  exact ⟨rfl, rfl, rfl⟩

/-- Witness for C7: a one-row prepared table filtered by a faculty
label that matches no row yields an empty subset, and all three
aggregations over it are empty. -/
theorem empty_filter_agg_safe_witness :
    groupbyCount (fun p => p.kategori_fomo)
      (filterInteraktif (some "Tidak Ada") none none none []
        (preprocess_data [baseRow])) = [] ∧
    groupbyMean (fun p => p.kategori_fomo) (fun p => p.indeks_stres)
      (filterInteraktif (some "Tidak Ada") none none none []
        (preprocess_data [baseRow])) = [] ∧
    valueCounts (fun p => p.kebutuhan_dukungan)
      (filterInteraktif (some "Tidak Ada") none none none []
        (preprocess_data [baseRow])) = [] :=
  empty_filter_agg_safe (some "Tidak Ada") none none none []
    (preprocess_data [baseRow]) _ _ _ (by decide)

/-- C8: the preprocessing pipeline is a deterministic pure function of
the raw table: two runs over equal raw tables produce equal prepared
tables. -/
theorem preprocess_deterministic (df1 df2 : List RawRow) (h : df1 = df2) :
    preprocess_data df1 = preprocess_data df2 := by
  rw [h]

/-- Witness for C8: two runs over the same concrete one-row table agree. -/
theorem preprocess_deterministic_witness :
    preprocess_data [baseRow] = preprocess_data [baseRow] :=
  preprocess_deterministic [baseRow] [baseRow] rfl

theorem mem_filterInteraktif_between {fak fomo keu : Option String}
    {lo hi : ℚ} {prog : List String} {rows : List PreparedRow}
    {r : PreparedRow}
    (h : r ∈ filterInteraktif fak fomo keu (some (lo, hi)) prog rows) :
    betweenOpt lo hi r.proporsi_fomo = true := by
  rcases prog with _ | ⟨p, ps⟩
  · simp only [filterInteraktif] at h
    exact (List.mem_filter.mp h).2
  · simp only [filterInteraktif] at h
    exact (List.mem_filter.mp (List.mem_filter.mp h).1).2

/-- C9: when the prepared table has at least one defined
`proporsi_fomo` value, the slider interval filter is applied even at
its default full-range selection, and a row whose `proporsi_fomo` is
missing is excluded from the filtered result whatever the other
selections are. -/
theorem undefined_ratio_always_filtered (rows : List PreparedRow)
    (fak fomo keu : Option String) (prog : List String) (r : PreparedRow)
    (hany : rows.any (fun q => q.proporsi_fomo.isSome) = true)
    (hr : r.proporsi_fomo = none) :
    r ∉ filterInteraktif fak fomo keu (propRangeOf rows) prog rows := by
  intro hmem
  simp only [propRangeOf, hany, if_true] at hmem
  have hb := mem_filterInteraktif_between hmem
  rw [hr] at hb
  simp [betweenOpt] at hb

/-- Witness for C9: over a prepared table holding one row with a
defined ratio, the zero-allowance row (whose ratio is missing) is not
in the unfiltered-looking default view. -/
theorem undefined_ratio_always_filtered_witness :
    preprocessRow rowZeroUang ∉
      filterInteraktif none none none
        (propRangeOf (preprocess_data [rowRatio12])) []
        (preprocess_data [rowRatio12]) :=
  undefined_ratio_always_filtered (preprocess_data [rowRatio12])
    none none none [] (preprocessRow rowZeroUang) (by decide) (by decide)

/-- C10: the normalized categorical columns are never missing: a raw
row with a missing `fakultas` gets the literal label "Nan", which then
occurs as an ordinary key of the faculty group-by aggregation, and a
missing `program_studi` likewise becomes the label "Nan". -/
theorem missing_label_becomes_nan (rows : List RawRow) (r : RawRow)
    (hmem : r ∈ rows) :
    (r.fakultas = none → (preprocessRow r).fakultas = "Nan" ∧
      "Nan" ∈ (groupbyCount (fun p => p.fakultas)
        (preprocess_data rows)).map Prod.fst) ∧
    (r.program_studi = none → (preprocessRow r).program_studi = "Nan") := by
  constructor
  · intro hf
    have hlab : (preprocessRow r).fakultas = "Nan" := by
      simp only [preprocessRow, hf]
      decide
    refine ⟨hlab, ?_⟩
    have hkeys : (groupbyCount (fun p => p.fakultas)
        (preprocess_data rows)).map Prod.fst
        = sortStrings ((preprocess_data rows).map (fun p => p.fakultas)).dedup := by
      simp [groupbyCount, List.map_map, Function.comp_def]
    rw [hkeys, mem_sortStrings, List.mem_dedup]
    exact List.mem_map.mpr ⟨preprocessRow r,
      List.mem_map_of_mem _ hmem, hlab⟩
  · intro hp
    simp only [preprocessRow, hp]
    decide

/-- Witness for C10 at the all-missing concrete row: both normalized
labels are "Nan" and "Nan" is a faculty group-by key. -/
theorem missing_label_becomes_nan_witness :
    ((preprocessRow baseRow).fakultas = "Nan" ∧
      "Nan" ∈ (groupbyCount (fun p => p.fakultas)
        (preprocess_data [baseRow])).map Prod.fst) ∧
    (preprocessRow baseRow).program_studi = "Nan" :=
  ⟨(missing_label_becomes_nan [baseRow] baseRow (List.mem_singleton.mpr rfl)).1 rfl,
    (missing_label_becomes_nan [baseRow] baseRow (List.mem_singleton.mpr rfl)).2 rfl⟩

end FomoDash
